import Mathlib

/-!
Verification development for the Context7 MCP proxy repository.

The embedding below translates the request handler `proxy_mcp_request` of
src/context7_proxy.py and the `process` function of
src/tests/integrationtests/processors/payload_transformer.py into Lean.
Python library behaviour that the handler relies on is modelled explicitly:

* `hGet` models the case-insensitive first-match `get` of the starlette and
  httpx header multimaps;
* `dictSet` models Python dict assignment on an association list;
* `loadsModel` is an executable JSON parser modelling `json.loads` on the
  integer/string/array/object subset used by the inputs of this file
  (floats and unicode escapes are outside the modelled subset);
* `evalModel` models the behaviour of the Python builtin `eval` on the
  finitely many payload texts that appear in this file;
* walrus-condition truthiness (`if sess_id := ...get(...)`) is modelled by
  an emptiness test on the retrieved string.

The handler itself is a pure function of the inbound header list, the parse
outcome of the inbound body, and the upstream behaviour (a function from
the outbound call to the upstream result); it returns the response
envelope together with the outbound call it made, if any.
-/

/-- JSON-like values, as produced by the Python json module and by the
dict, list, tuple, string and integer results of evaluating payload text.
Numbers are restricted to integers; float payloads are outside the
modelled subset. -/
inductive J where
  | null
  | bool (b : Bool)
  | num (n : Int)
  | str (s : String)
  | arr (elts : List J)
  | obj (fields : List (String × J))

/-- ASCII lower casing of one character, as applied to HTTP header names. -/
def lowerChar (c : Char) : Char :=
  if 'A' ≤ c ∧ c ≤ 'Z' then Char.ofNat (c.toNat + 32) else c

/-- ASCII lower casing of a string. -/
def lowerStr (s : String) : String :=
  String.mk (s.data.map lowerChar)

/-- Case-insensitive first-match header lookup, modelling the `get` method
of the starlette and httpx header multimaps used in proxy_mcp_request. -/
def hGet (hs : List (String × String)) (k : String) : Option String :=
  (hs.find? (fun p => lowerStr p.fst == lowerStr k)).map (fun p => p.snd)

/-- Python dict assignment d[k] = v on an association list: replace in
place when the key is present, append otherwise. -/
def dictSet {α : Type} (d : List (String × α)) (k : String) (v : α) :
    List (String × α) :=
  if d.any (fun p => p.fst == k) then
    d.map (fun p => if p.fst == k then (k, v) else p)
  else d ++ [(k, v)]

/-- Exact-key lookup on a Python dict kept as an association list. -/
def dictGet {α : Type} (d : List (String × α)) (k : String) : Option α :=
  (d.find? (fun p => p.fst == k)).map (fun p => p.snd)

/-- The whitespace characters stripped by the Python `str.strip` method. -/
def pyWs (c : Char) : Bool :=
  c == ' ' || c == '\t' || c == '\n' || c == '\r' || c == '\x0b' || c == '\x0c'

/-- Python `str.strip()` on the character list of a string. -/
def pyStripL (l : List Char) : List Char :=
  ((l.dropWhile pyWs).reverse.dropWhile pyWs).reverse

/-- Python `str.split(chr(10))`: split on every newline, keeping empty
pieces; the empty string yields one empty piece. -/
def splitNl : List Char → List (List Char)
  | [] => [[]]
  | c :: t =>
    match splitNl t with
    | [] => [[]]
    | h :: r => if c == '\n' then [] :: h :: r else (c :: h) :: r

/-- Helper for substring containment: does `sub` occur inside the list? -/
def containsSub (sub : List Char) : List Char → Bool
  | [] => sub.isEmpty
  | c :: t => sub.isPrefixOf (c :: t) || containsSub sub t

/-- Python substring membership test `sub in s`. -/
def strContains (s sub : String) : Bool :=
  containsSub sub.data s.data

/-- Python truthiness of a decoded value, as used by `if json_data:`. -/
def pyTruthy : J → Bool
  | J.null => false
  | J.bool b => b
  | J.num n => n != 0
  | J.str s => s != ""
  | J.arr l => !l.isEmpty
  | J.obj l => !l.isEmpty

/-- JSON whitespace skipping, as in the Python json decoder. -/
def skipWs : List Char → List Char
  | c :: t => if c == ' ' || c == '\t' || c == '\n' || c == '\r' then skipWs t else c :: t
  | [] => []

/-- Body of a JSON string literal after the opening quote: collect
characters until the closing quote, handling the simple escape sequences
and rejecting raw control characters, as `json.loads` does. -/
def parseStrAux : Nat → List Char → List Char → Option (String × List Char)
  | 0, _, _ => none
  | _ + 1, acc, '"' :: t => some (String.mk acc.reverse, t)
  | f + 1, acc, '\\' :: c :: t =>
    match c with
    | '"' => parseStrAux f ('"' :: acc) t
    | '\\' => parseStrAux f ('\\' :: acc) t
    | '/' => parseStrAux f ('/' :: acc) t
    | 'n' => parseStrAux f ('\n' :: acc) t
    | 't' => parseStrAux f ('\t' :: acc) t
    | 'r' => parseStrAux f ('\r' :: acc) t
    | _ => none
  | f + 1, acc, c :: t =>
    if c == '\\' then none
    else if c.toNat < 32 then none
    else parseStrAux f (c :: acc) t
  | _, _, [] => none

/-- Numeric value of a decimal digit character. -/
def digitVal (c : Char) : Nat := c.toNat - '0'.toNat

/-- Natural number denoted by a list of decimal digits. -/
def digitsToNat (l : List Char) : Nat :=
  l.foldl (fun a c => a * 10 + digitVal c) 0

/-- Integer literal at the head of the input, as accepted by `json.loads`:
optional minus sign, no leading zeros, and no fraction or exponent (floats
are outside the modelled subset). -/
def parseNum (l : List Char) : Option (Int × List Char) :=
  let (neg, l1) := match l with
    | '-' :: t => (true, t)
    | _ => (false, l)
  let ds := l1.takeWhile Char.isDigit
  let rest := l1.dropWhile Char.isDigit
  if ds.isEmpty then none
  else if ds.length > 1 && ds.head? == some '0' then none
  else
    let v : Int := if neg then -(digitsToNat ds : Int) else (digitsToNat ds : Int)
    match rest with
    | c :: _ => if c == '.' || c == 'e' || c == 'E' then none else some (v, rest)
    | [] => some (v, [])

mutual

/-- One JSON value at the head of the input, with fuel; models the
recursive descent of the Python json decoder on the modelled subset. -/
def parseVal : Nat → List Char → Option (J × List Char)
  | 0, _ => none
  | f + 1, l =>
    match skipWs l with
    | 't' :: 'r' :: 'u' :: 'e' :: t => some (J.bool true, t)
    | 'f' :: 'a' :: 'l' :: 's' :: 'e' :: t => some (J.bool false, t)
    | 'n' :: 'u' :: 'l' :: 'l' :: t => some (J.null, t)
    | '"' :: t => (parseStrAux (t.length + 1) [] t).map (fun p => (J.str p.fst, p.snd))
    | '[' :: t =>
      match skipWs t with
      | ']' :: r => some (J.arr [], r)
      | _ => parseElems f t []
    | '\x7b' :: t =>
      match skipWs t with
      | '\x7d' :: r => some (J.obj [], r)
      | _ => parseMembers f t []
    | l2 => (parseNum l2).map (fun p => (J.num p.fst, p.snd))

/-- Comma-separated array elements up to the closing bracket. -/
def parseElems : Nat → List Char → List J → Option (J × List Char)
  | 0, _, _ => none
  | f + 1, l, acc =>
    match parseVal f l with
    | some (v, r) =>
      match skipWs r with
      | ',' :: r2 => parseElems f r2 (acc ++ [v])
      | ']' :: r2 => some (J.arr (acc ++ [v]), r2)
      | _ => none
    | none => none

/-- Comma-separated object members up to the closing brace. -/
def parseMembers : Nat → List Char → List (String × J) → Option (J × List Char)
  | 0, _, _ => none
  | f + 1, l, acc =>
    match skipWs l with
    | '"' :: t =>
      match parseStrAux (t.length + 1) [] t with
      | some (k, r) =>
        match skipWs r with
        | ':' :: r2 =>
          match parseVal f r2 with
          | some (v, r3) =>
            match skipWs r3 with
            | ',' :: r4 => parseMembers f r4 (acc ++ [(k, v)])
            | '\x7d' :: r4 => some (J.obj (acc ++ [(k, v)]), r4)
            | _ => none
          | none => none
        | _ => none
      | none => none
    | _ => none

end

/-- Model of the Python builtin `json.loads`: parse one JSON value and
require the remaining input to be whitespace only. -/
def loadsModel (s : String) : Option J :=
  match parseVal (s.length + 1) s.data with
  | some (j, r) => if (skipWs r).isEmpty then some j else none
  | none => none

/-- Model of the Python builtin `eval` restricted to the payload texts that
appear in this file: a Python dict display with double-quoted string keys
or a tuple display evaluates to the corresponding value, and every other
text used here raises (the at-sign text is a syntax error). `eval` is
external library behaviour, not repository code; this table records its
documented behaviour on exactly these inputs. -/
def evalModel (s : String) : Option J :=
  if s = "\x7b\"ok\": 1\x7d" then some (J.obj [("ok", J.num 1)])
  else if s = "\x7b\"result\":\"ok\"\x7d" then some (J.obj [("result", J.str "ok")])
  else if s = "(1, 2)" then some (J.arr [J.num 1, J.num 2])
  else none

/-- Model of the message carried by the httpx exception raised by
`raise_for_status` on a non-success status (text abbreviated; only the
prefix added by the handler itself is relied upon by any claim). -/
def statusErrModel (st : Nat) : String :=
  "Client error response with status " ++ toString st

/-- The Python library functions the handler calls: the two decoders used
on payload text, the message of a failed `json.loads`, and the message of
the exception raised by `raise_for_status`. -/
structure PyEnv where
  evalF : String → Option J
  loadsF : String → Option J
  loadsErr : String → String
  statusErr : Nat → String

/-- The concrete model environment: `evalModel`, `loadsModel`, the message
`json.loads` produces on the non-JSON body used in this file, and the
abbreviated `raise_for_status` message. -/
def pyModelEnv : PyEnv :=
  ⟨evalModel, loadsModel,
   fun _ => "Expecting value: line 1 column 1 (char 0)",
   statusErrModel⟩

/-- The single outbound POST the handler performs: target URL, outbound
header set, and the forwarded JSON body. -/
structure OutboundCall where
  url : String
  headers : List (String × String)
  body : J

/-- Outcome of the outbound POST: a network-level httpx error (timeout,
connection failure), or a reply with status, headers and raw body text. -/
inductive UpstreamResult where
  | netFail (msg : String)
  | reply (status : Nat) (headers : List (String × String)) (body : String)

/-- The response returned to the caller: HTTP status, JSON payload, and
the headers the handler sets on the JSONResponse. -/
structure Envelope where
  status : Nat
  payload : J
  headers : List (String × String)

/-- CONTEXT7_BASE_URL of src/context7_proxy.py. -/
def CONTEXT7_BASE_URL : String := "https://mcp.context7.com/mcp"

/-- USER_AGENT of src/context7_proxy.py. -/
def USER_AGENT : String :=
  "Mozilla/5.0 (Macintosh; Intel Mac OS X 10_15_7) AppleWebKit/537.36 (KHTML, like Gecko) Chrome/139.0.0.0 Safari/537.36"

/-- The header dict literal built for the outbound call (the spread of the
inbound headers is commented out in the source). -/
def fixedProxyHeaders : List (String × String) :=
  [("Content-Type", "application/json"),
   ("Accept", "application/json, text/event-stream"),
   ("User-Agent", USER_AGENT)]

/-- The outbound header construction of proxy_mcp_request: start from the
fixed dict literal, then run the two walrus-guarded session-id
assignments. Both `get` calls are case-insensitive, and the walrus
condition also rejects an empty string value. -/
def buildProxyHeaders (hdrs : List (String × String)) : List (String × String) :=
  let ph := fixedProxyHeaders
  let ph :=
    match hGet hdrs "MCP-Session-Id" with
    | some v => if v == "" then ph else dictSet ph "mcp-session-id" v
    | none => ph
  match hGet hdrs "mcp-session-id" with
  | some v => if v == "" then ph else dictSet ph "mcp-session-id" v
  | none => ph

/-- The response_headers construction of the SSE branch: the two
walrus-guarded assignments echoing the upstream session id under the
canonical lower-case key. -/
def echoSession (hs : List (String × String)) : List (String × String) :=
  let rh : List (String × String) := []
  let rh :=
    match hGet hs "mcp-session-id" with
    | some v => if v == "" then rh else dictSet rh "mcp-session-id" v
    | none => rh
  match hGet hs "Mcp-Session-Id" with
  | some v => if v == "" then rh else dictSet rh "mcp-session-id" v
  | none => rh

/-- The body FastAPI renders for a raised HTTPException with the given
detail message. -/
def errDetail (msg : String) : J :=
  J.obj [("detail", J.str msg)]

/-- The fallback JSONResponse of the SSE branch when no data line parses:
status 500 with the raw body text attached. -/
def sseFailEnvelope (rawBody : String) : Envelope :=
  ⟨500,
   J.obj [("error", J.str "Failed to parse streaming response"),
          ("raw", J.str rawBody)],
   []⟩

/-- The marker recognised by `line.startswith` in the SSE branch. -/
def dataMarker : List Char := "data: ".data

/-- The SSE scanning loop of proxy_mcp_request: walk the lines, and on
each line carrying the data marker strip the six-character marker and try
the two decoders in order (eval first, then json.loads); break at the
first successful parse, otherwise continue with the remaining lines. -/
def scanDataLines (ef lf : String → Option J) : List (List Char) → Option J
  | [] => none
  | l :: ls =>
    if dataMarker.isPrefixOf l then
      match ef (String.mk (l.drop 6)) with
      | some j => some j
      | none =>
        match lf (String.mk (l.drop 6)) with
        | some j => some j
        | none => scanDataLines ef lf ls
    else scanDataLines ef lf ls

/-- The decode attempted on one extracted data-line text: eval first, then
json.loads as the fallback. -/
def decodeOne (ef lf : String → Option J) (s : String) : Option J :=
  match ef s with
  | some j => some j
  | none => lf s

/-- Processing of an upstream reply that came back from the POST: the
debug log of a 400 body (whose json decode can itself raise), then
raise_for_status, then the content-type branch of proxy_mcp_request.
The SSE branch strips and splits the body, runs the data-line scan, and
returns the decoded payload with the echoed session headers when the
scan produced a truthy value; the plain branch decodes the body only when
the content type equals application/json exactly, treating a decode
failure as an empty dict, and sets no headers on its JSONResponse. -/
def handleReply (env : PyEnv) (st : Nat) (hs : List (String × String))
    (ub : String) : Envelope :=
  if st = 400 ∧ (env.loadsF ub).isNone then
    ⟨500, errDetail ("Internal server error: " ++ env.loadsErr ub), []⟩
  else if 200 ≤ st ∧ st < 300 then
    let contentType := (hGet hs "content-type").getD ""
    if strContains contentType "text/event-stream" then
      let lines := splitNl (pyStripL ub.data)
      match scanDataLines env.evalF env.loadsF lines with
      | some j =>
        if pyTruthy j then ⟨st, j, echoSession hs⟩
        else sseFailEnvelope ub
      | none => sseFailEnvelope ub
    else
      let responseData :=
        if hGet hs "Content-Type" = some "application/json" then
          (env.loadsF ub).getD (J.obj [])
        else J.obj []
      ⟨st, responseData, []⟩
  else
    ⟨500, errDetail ("Error forwarding request: " ++ env.statusErr st), []⟩

/-- The proxy_mcp_request handler of src/context7_proxy.py as a function
of the inbound header list, the outcome of `await request.json()` (an
error carries the decode exception text), and the upstream behaviour.
Returns the envelope sent to the caller together with the outbound call
performed, or `none` when no upstream call was made. The deletion of the
centian-url key from the mutable header copy has no observable effect,
because the copy is never forwarded (the spread is commented out). -/
def proxy_mcp_request (env : PyEnv) (hdrs : List (String × String))
    (body : Except String J) (upstream : OutboundCall → UpstreamResult) :
    Envelope × Option OutboundCall :=
  match body with
  | .error e =>
    (⟨500, errDetail ("Internal server error: " ++ e), []⟩, none)
  | .ok requestData =>
    let requestUrl := (hGet hdrs "centian-url").getD CONTEXT7_BASE_URL
    let call : OutboundCall := ⟨requestUrl, buildProxyHeaders hdrs, requestData⟩
    match upstream call with
    | .netFail msg =>
      (⟨500, errDetail ("Error forwarding request: " ++ msg), []⟩, some call)
    | .reply st hs ub => (handleReply env st hs ub, some call)

namespace PayloadTransformer

/-- Metadata block of a processor result. -/
structure ProcMetadata where
  processor_name : String
  modifications : List String

/-- Result structure of a processor run. -/
structure ProcResult where
  status : Nat
  payload : J
  error : Option String
  metadata : ProcMetadata

/-- The `process` function of
src/tests/integrationtests/processors/payload_transformer.py, on the
payload mapping of the event. When the payload has a params key, the
params mapping gains an arguments mapping if missing and the x-processor
marker is inserted into it; the locally computed modifications list is
then discarded, the returned metadata carrying a literal empty list.
`none` models the TypeError raised when params or arguments is not a
mapping (caught by `main`, outside this function). -/
def process (payload : List (String × J)) : Option ProcResult :=
  if (dictGet payload "params").isSome then
    match dictGet payload "params" with
    | some (J.obj pf) =>
      let pf2 := if (dictGet pf "arguments").isSome then pf
                 else dictSet pf "arguments" (J.obj [])
      match dictGet pf2 "arguments" with
      | some (J.obj af) =>
        let af2 := dictSet af "x-processor" (J.str "payload_transformer")
        let modifications := ["added x-processor header"]
        let newPayload := dictSet payload "params"
          (J.obj (dictSet pf2 "arguments" (J.obj af2)))
        let _ := modifications
        some ⟨200, J.obj newPayload, none, ⟨"payload_transformer", []⟩⟩
      | _ => none
    | _ => none
  else
    some ⟨200, J.obj payload, none, ⟨"payload_transformer", []⟩⟩

end PayloadTransformer

/-- The case-insensitive header lookup depends on the key only through its
lower-cased form. -/
theorem hGet_key_eq (hs : List (String × String)) (k k2 : String)
    (h : lowerStr k = lowerStr k2) : hGet hs k = hGet hs k2 := by
  unfold hGet
  rw [h]

/-- Closed form of the outbound header construction: the fixed allow-list,
extended by one canonical session entry exactly when the inbound headers
carry a nonempty session id under any casing. -/
theorem buildProxyHeaders_eq (hdrs : List (String × String)) :
    buildProxyHeaders hdrs =
      match hGet hdrs "mcp-session-id" with
      | some v =>
        if v == "" then fixedProxyHeaders
        else fixedProxyHeaders ++ [("mcp-session-id", v)]
      | none => fixedProxyHeaders := by
  unfold buildProxyHeaders
  rw [hGet_key_eq hdrs "MCP-Session-Id" "mcp-session-id" (by decide)]
  cases h : hGet hdrs "mcp-session-id" with
  | none => rfl
  | some v =>
    cases hv : v == "" with
    | true => simp [hv]
    | false => simp [hv]; rfl

/-- Closed form of the SSE response_headers construction: one canonical
session entry exactly when the upstream reply carries a nonempty session
id under any casing. -/
theorem echoSession_eq (hs : List (String × String)) :
    echoSession hs =
      match hGet hs "mcp-session-id" with
      | some v => if v == "" then [] else [("mcp-session-id", v)]
      | none => [] := by
  unfold echoSession
  rw [hGet_key_eq hs "Mcp-Session-Id" "mcp-session-id" (by decide)]
  cases h : hGet hs "mcp-session-id" with
  | none => rfl
  | some v =>
    cases hv : v == "" with
    | true => simp [hv]
    | false => simp [hv]; rfl

/-- The SSE scanning loop returns the decode of the first data line whose
remainder parses under eval or json.loads, skipping the lines that fail. -/
theorem scanDataLines_eq_findSome (ef lf : String → Option J)
    (lines : List (List Char)) :
    scanDataLines ef lf lines =
      lines.findSome? (fun l =>
        if dataMarker.isPrefixOf l then decodeOne ef lf (String.mk (l.drop 6))
        else none) := by
  induction lines with
  | nil => rfl
  | cons l ls ih =>
    cases hp : dataMarker.isPrefixOf l with
    | false => simp [scanDataLines, List.findSome?, hp, ih]
    | true =>
      cases he : ef (String.mk (l.drop 6)) with
      | some j => simp [scanDataLines, List.findSome?, hp, decodeOne, he]
      | none =>
        cases hl : lf (String.mk (l.drop 6)) with
        | some j => simp [scanDataLines, List.findSome?, hp, decodeOne, he, hl]
        | none => simp [scanDataLines, List.findSome?, hp, decodeOne, he, hl, ih]

/-- When no line carries the data marker, the scan yields nothing. -/
theorem scanDataLines_none (ef lf : String → Option J)
    (lines : List (List Char))
    (h : ∀ l ∈ lines, dataMarker.isPrefixOf l = false) :
    scanDataLines ef lf lines = none := by
  induction lines with
  | nil => rfl
  | cons l ls ih =>
    have hl := h l (List.mem_cons_self l ls)
    simp only [scanDataLines, hl]
    exact ih (fun x hx => h x (List.mem_cons_of_mem l hx))

/-- An upstream reply with a success status is processed by the
content-type branch; the status-400 log line and raise_for_status do not
fire. Closed form of the SSE branch under a truthy scan result. -/
theorem handleReply_sse (env : PyEnv) (st : Nat) (hs : List (String × String))
    (ub : String) (d : J)
    (h1 : 200 ≤ st) (h2 : st < 300)
    (hct : strContains ((hGet hs "content-type").getD "") "text/event-stream" = true)
    (hscan : scanDataLines env.evalF env.loadsF (splitNl (pyStripL ub.data)) = some d)
    (htr : pyTruthy d = true) :
    handleReply env st hs ub = ⟨st, d, echoSession hs⟩ := by
  have hne : st ≠ 400 := by omega
  unfold handleReply
  rw [if_neg (fun hcon => hne hcon.1), if_pos ⟨h1, h2⟩]
  simp [hct, hscan, htr]

/-- Closed form of the SSE branch when the scan finds nothing. -/
theorem handleReply_sse_fail (env : PyEnv) (st : Nat)
    (hs : List (String × String)) (ub : String)
    (h1 : 200 ≤ st) (h2 : st < 300)
    (hct : strContains ((hGet hs "content-type").getD "") "text/event-stream" = true)
    (hscan : scanDataLines env.evalF env.loadsF (splitNl (pyStripL ub.data)) = none) :
    handleReply env st hs ub = sseFailEnvelope ub := by
  have hne : st ≠ 400 := by omega
  unfold handleReply
  rw [if_neg (fun hcon => hne hcon.1), if_pos ⟨h1, h2⟩]
  simp [hct, hscan]

/-- Closed form of the plain-JSON branch: with a success status and a
content type equal to application/json, the payload is the decoded body or
the empty dict, the status is mirrored, and no headers are set. -/
theorem handleReply_json (env : PyEnv) (st : Nat) (hs : List (String × String))
    (ub : String)
    (h1 : 200 ≤ st) (h2 : st < 300)
    (hct : hGet hs "Content-Type" = some "application/json") :
    handleReply env st hs ub = ⟨st, (env.loadsF ub).getD (J.obj []), []⟩ := by
  have hct2 : hGet hs "content-type" = some "application/json" := by
    rw [← hGet_key_eq hs "Content-Type" "content-type" (by decide)]
    exact hct
  have hne : st ≠ 400 := by omega
  have hnosse : strContains "application/json" "text/event-stream" = false := by decide
  unfold handleReply
  rw [if_neg (fun hcon => hne hcon.1), if_pos ⟨h1, h2⟩]
  simp [hct2, hct, hnosse]

/-- A nonempty string has a false equality test against the empty string. -/
theorem beq_empty_false (v : String) (hv : v ≠ "") : (v == "") = false := by
  cases hb : v == "" with
  | true => exact absurd (eq_of_beq hb) hv
  | false => rfl

/-- Claim C1 (counterexample): an upstream reply on the plain-JSON path
carries the session-id header mcp-session-id with value abc, yet the
envelope returned to the caller sets no headers at all, so the session id
is not echoed — refuting the claim that the echo happens regardless of
which path was taken. -/
theorem c1_counterexample :
    hGet [("content-type", "application/json"), ("mcp-session-id", "abc")]
        "mcp-session-id" = some "abc" ∧
    (proxy_mcp_request pyModelEnv [] (.ok (J.obj []))
      (fun _ => .reply 200
        [("content-type", "application/json"), ("mcp-session-id", "abc")]
        "\x7b\"result\":\"ok\"\x7d")).fst
      = ⟨200, J.obj [("result", J.str "ok")], []⟩ :=
  ⟨rfl, rfl⟩

/-- Claim C1 (amended): only on the SSE path, and only when the data-line
scan produced a truthy payload, is a nonempty upstream session-id header
(found under either casing by the case-insensitive lookup) echoed back in
the envelope under the canonical lower-case key; the plain-JSON path sets
no headers on its response. -/
theorem c1_theorem (env : PyEnv) (hdrs : List (String × String)) (j d : J)
    (st : Nat) (hs : List (String × String)) (ub v : String)
    (h1 : 200 ≤ st) (h2 : st < 300)
    (hct : strContains ((hGet hs "content-type").getD "") "text/event-stream" = true)
    (hscan : scanDataLines env.evalF env.loadsF (splitNl (pyStripL ub.data)) = some d)
    (htr : pyTruthy d = true)
    (hsess : hGet hs "mcp-session-id" = some v) (hv : v ≠ "") :
    (proxy_mcp_request env hdrs (.ok j) (fun _ => .reply st hs ub)).fst
      = ⟨st, d, [("mcp-session-id", v)]⟩ := by
  show handleReply env st hs ub = ⟨st, d, [("mcp-session-id", v)]⟩
  rw [handleReply_sse env st hs ub d h1 h2 hct hscan htr, echoSession_eq hs, hsess]
  simp [beq_empty_false v hv]

/-- Witness for C1 (amended) at a concrete SSE reply carrying a session
id. -/
theorem c1_witness :
    (proxy_mcp_request pyModelEnv [] (.ok (J.obj []))
      (fun _ => .reply 200
        [("content-type", "text/event-stream"), ("mcp-session-id", "abc")]
        "data: \x7b\"result\":\"ok\"\x7d")).fst
      = ⟨200, J.obj [("result", J.str "ok")], [("mcp-session-id", "abc")]⟩ :=
  c1_theorem pyModelEnv [] (J.obj []) (J.obj [("result", J.str "ok")]) 200
    [("content-type", "text/event-stream"), ("mcp-session-id", "abc")]
    "data: \x7b\"result\":\"ok\"\x7d" "abc"
    (by decide) (by decide) rfl rfl rfl rfl (by decide)

/-- Claim C2 (counterexample): the SSE body has two data lines; the first
one fails to decode under both decoders, and the payload of the envelope
is decoded from the second data line — refuting the claim that exactly
the first data line is used and all later ones ignored even when the
first fails to decode. -/
theorem c2_counterexample :
    decodeOne pyModelEnv.evalF pyModelEnv.loadsF "@@@" = none ∧
    (proxy_mcp_request pyModelEnv [] (.ok (J.obj []))
      (fun _ => .reply 200 [("content-type", "text/event-stream")]
        "data: @@@\ndata: \x7b\"ok\": 1\x7d")).fst
      = ⟨200, J.obj [("ok", J.num 1)], []⟩ :=
  ⟨rfl, rfl⟩

/-- Claim C2 (amended): over any stripped and line-split SSE body, the
scan returns the decode of the first data line whose remainder parses
under eval or the JSON fallback; data lines that fail to decode are
skipped rather than ending the scan, and once a data line decodes the
remaining lines are ignored. -/
theorem c2_theorem (ef lf : String → Option J) (body : String) :
    scanDataLines ef lf (splitNl (pyStripL body.data)) =
      (splitNl (pyStripL body.data)).findSome? (fun l =>
        if dataMarker.isPrefixOf l then decodeOne ef lf (String.mk (l.drop 6))
        else none) :=
  scanDataLines_eq_findSome ef lf (splitNl (pyStripL body.data))

/-- Witness for C2 (amended) at a concrete two-line body whose first data
line fails to decode. -/
theorem c2_witness :
    scanDataLines evalModel loadsModel
        (splitNl (pyStripL "data: @@@\ndata: (1, 2)".data))
      = some (J.arr [J.num 1, J.num 2]) := by
  rw [c2_theorem evalModel loadsModel "data: @@@\ndata: (1, 2)"]
  rfl

/-- Claim C3: the decode of an extracted data-line text tries the generic
evaluator first and falls back to the JSON decoder only when evaluation
fails; the Python tuple display is not valid JSON yet the SSE path
accepts it and returns it as the decoded payload. -/
theorem c3_theorem :
    (∀ (ef lf : String → Option J) (s : String) (j : J),
        ef s = some j → decodeOne ef lf s = some j) ∧
    loadsModel "(1, 2)" = none ∧
    evalModel "(1, 2)" = some (J.arr [J.num 1, J.num 2]) ∧
    (proxy_mcp_request pyModelEnv [] (.ok (J.obj []))
      (fun _ => .reply 200 [("content-type", "text/event-stream")]
        "data: (1, 2)")).fst
      = ⟨200, J.arr [J.num 1, J.num 2], []⟩ := by
  refine ⟨fun ef lf s j h => ?_, rfl, rfl, rfl⟩
  unfold decodeOne
  rw [h]

/-- Witness for C3: the eval-first decode at the tuple text. -/
theorem c3_witness :
    decodeOne evalModel loadsModel "(1, 2)" = some (J.arr [J.num 1, J.num 2]) :=
  c3_theorem.1 evalModel loadsModel "(1, 2)" (J.arr [J.num 1, J.num 2]) rfl

/-- Claim C4: when the inbound body fails to parse as JSON, the handler
makes no upstream call (second component none) and returns a 500 envelope
whose detail message carries the decode error describing the malformed
input. -/
theorem c4_theorem (env : PyEnv) (hdrs : List (String × String)) (e : String)
    (upstream : OutboundCall → UpstreamResult) :
    proxy_mcp_request env hdrs (.error e) upstream
      = (⟨500, errDetail ("Internal server error: " ++ e), []⟩, none) :=
  rfl

/-- Witness for C4 at the concrete decode-error message json.loads emits
for a body that is not JSON. -/
theorem c4_witness :
    proxy_mcp_request pyModelEnv []
        (.error "Expecting value: line 1 column 1 (char 0)")
        (fun _ => .netFail "unused")
      = (⟨500,
          errDetail "Internal server error: Expecting value: line 1 column 1 (char 0)",
          []⟩, none) :=
  c4_theorem pyModelEnv [] "Expecting value: line 1 column 1 (char 0)"
    (fun _ => .netFail "unused")

/-- Claim C5 (counterexample): an upstream reply with status 400 and a
body that is not JSON makes the debug-logging call raise a decode error
before raise_for_status runs, so the envelope message is the generic
internal-error one rather than a forwarding-error message (the status is
still 500). -/
theorem c5_counterexample :
    (proxy_mcp_request pyModelEnv [] (.ok (J.obj []))
      (fun _ => .reply 400 [] "not json")).fst
      = ⟨500,
         errDetail "Internal server error: Expecting value: line 1 column 1 (char 0)",
         []⟩ ∧
    "Error forwarding request".data.isPrefixOf
        "Internal server error: Expecting value: line 1 column 1 (char 0)".data
      = false :=
  ⟨rfl, rfl⟩

/-- Claim C5 (amended): a network-level failure of the POST yields a 500
envelope with the forwarding-error message and no escaping exception; an
upstream reply with a non-success status also yields status 500 (the
upstream status is never mirrored), with the forwarding-error message in
every case except the corner where the status is 400 and the body is not
JSON-decodable, where the debug-logging decode error produces the generic
internal-error message instead. -/
theorem c5_theorem (env : PyEnv) (hdrs : List (String × String)) (j : J)
    (msg : String) (st : Nat) (hs : List (String × String)) (ub : String) :
    (proxy_mcp_request env hdrs (.ok j) (fun _ => .netFail msg)
      = (⟨500, errDetail ("Error forwarding request: " ++ msg), []⟩,
         some ⟨(hGet hdrs "centian-url").getD CONTEXT7_BASE_URL,
               buildProxyHeaders hdrs, j⟩)) ∧
    (¬ (200 ≤ st ∧ st < 300) →
      (proxy_mcp_request env hdrs (.ok j) (fun _ => .reply st hs ub)).fst.status
          = 500 ∧
      (st = 400 → env.loadsF ub = none →
        (proxy_mcp_request env hdrs (.ok j) (fun _ => .reply st hs ub)).fst.payload
          = errDetail ("Internal server error: " ++ env.loadsErr ub)) ∧
      (¬ (st = 400 ∧ env.loadsF ub = none) →
        (proxy_mcp_request env hdrs (.ok j) (fun _ => .reply st hs ub)).fst.payload
          = errDetail ("Error forwarding request: " ++ env.statusErr st))) := by
  constructor
  · rfl
  · intro hny
    refine ⟨?_, ?_, ?_⟩
    · show (handleReply env st hs ub).status = 500
      unfold handleReply
      by_cases h4 : st = 400 ∧ (env.loadsF ub).isNone = true
      · rw [if_pos h4]
      · rw [if_neg h4, if_neg hny]
    · intro h400 hnone
      show (handleReply env st hs ub).payload = _
      unfold handleReply
      rw [if_pos ⟨h400, by rw [hnone]; rfl⟩]
    · intro hno
      show (handleReply env st hs ub).payload = _
      unfold handleReply
      rw [if_neg (fun hc => hno ⟨hc.1, Option.isNone_iff_eq_none.mp hc.2⟩),
          if_neg hny]

/-- Witness for C5 (amended): the timeout case and a plain 404 case. -/
theorem c5_witness :
    (proxy_mcp_request pyModelEnv [] (.ok (J.obj []))
        (fun _ => .netFail "timeout")).fst
      = ⟨500, errDetail "Error forwarding request: timeout", []⟩ ∧
    (proxy_mcp_request pyModelEnv [] (.ok (J.obj []))
        (fun _ => .reply 404 [] "x")).fst.status = 500 ∧
    (proxy_mcp_request pyModelEnv [] (.ok (J.obj []))
        (fun _ => .reply 404 [] "x")).fst.payload
      = errDetail ("Error forwarding request: " ++ statusErrModel 404) := by
  have h := c5_theorem pyModelEnv [] (J.obj []) "timeout" 404 [] "x"
  refine ⟨by rw [h.1]; rfl, (h.2 (by omega)).1, ?_⟩

  exact (h.2 (by omega)).2.2 (fun hc => absurd hc.1 (by omega))

/-- Looking up a key right after a Python dict assignment of that key
returns the assigned value. -/
theorem dictGet_dictSet {α : Type} (d : List (String × α)) (k : String) (v : α) :
    dictGet (dictSet d k v) k = some v := by
  induction d with
  | nil => simp [dictSet, dictGet]
  | cons a t ih =>
    cases ha : a.fst == k with
    | true =>
      have hany : (a :: t).any (fun p => p.fst == k) = true := by
        simp [List.any_cons, ha]
      unfold dictSet
      rw [if_pos hany, List.map_cons, if_pos ha]
      unfold dictGet
      rw [List.find?_cons_of_pos _ (by simp)]
      rfl
    | false =>
      have hane : a.fst ≠ k := fun hh => by
        rw [hh] at ha
        simp at ha
      have h1 : dictSet (a :: t) k v = a :: dictSet t k v := by
        unfold dictSet
        cases hat : t.any (fun p => p.fst == k) with
        | true => simp [List.any_cons, ha, hat, hane]
        | false => simp [List.any_cons, ha, hat]
      rw [h1]
      unfold dictGet
      rw [List.find?_cons_of_neg _ (by simp [ha])]
      exact ih

/-- Every entry of the fixed outbound header dict has one of the three
fixed keys. -/
theorem fixedProxyHeaders_fst (p : String × String)
    (hp : p ∈ fixedProxyHeaders) :
    p.fst = "Content-Type" ∨ p.fst = "Accept" ∨ p.fst = "User-Agent" := by
  simp [fixedProxyHeaders] at hp
  rcases hp with h | h | h
  · exact Or.inl (by rw [h])
  · exact Or.inr (Or.inl (by rw [h]))
  · exact Or.inr (Or.inr (by rw [h]))

/-- Every entry of the outbound header set is either one of the three
fixed entries or carries the canonical session key. -/
theorem mem_buildProxyHeaders (hdrs : List (String × String))
    (p : String × String) (hp : p ∈ buildProxyHeaders hdrs) :
    p ∈ fixedProxyHeaders ∨ p.fst = "mcp-session-id" := by
  rw [buildProxyHeaders_eq] at hp
  rcases hget : hGet hdrs "mcp-session-id" with _ | v
  · rw [hget] at hp
    exact Or.inl hp
  · rw [hget] at hp
    cases hv : v == "" with
    | true =>
      simp only [hv] at hp
      rw [if_pos trivial] at hp
      exact Or.inl hp
    | false =>
      simp only [hv] at hp
      rw [if_neg Bool.false_ne_true] at hp
      rcases List.mem_append.mp hp with h1 | h1
      · exact Or.inl h1
      · exact Or.inr (by rw [List.mem_singleton.mp h1])

/-- When the inbound headers carry no session id, or one with an empty
value, the outbound header set is exactly the fixed allow-list. -/
theorem buildProxyHeaders_no_session (hdrs : List (String × String))
    (hor : hGet hdrs "mcp-session-id" = none ∨
      hGet hdrs "mcp-session-id" = some "") :
    buildProxyHeaders hdrs = fixedProxyHeaders := by
  rw [buildProxyHeaders_eq]
  rcases hor with h | h
  · rw [h]
  · rw [h]
    rfl

/-- Claim C6: for a success-status upstream reply whose content type is
the exact string application/json, the envelope mirrors the upstream
status and its payload is the JSON-decoded body, falling back to the
empty mapping when the body does not decode. -/
theorem c6_theorem (env : PyEnv) (hdrs : List (String × String)) (j : J)
    (st : Nat) (hs : List (String × String)) (ub : String)
    (h1 : 200 ≤ st) (h2 : st < 300)
    (hct : hGet hs "Content-Type" = some "application/json") :
    (proxy_mcp_request env hdrs (.ok j) (fun _ => .reply st hs ub)).fst
      = ⟨st, (env.loadsF ub).getD (J.obj []), []⟩ := by
  show handleReply env st hs ub = ⟨st, (env.loadsF ub).getD (J.obj []), []⟩
  exact handleReply_json env st hs ub h1 h2 hct

/-- Witness for C6: a decodable JSON body gives the decoded payload with
the mirrored status, and a non-decodable body gives the empty mapping
with the mirrored status. -/
theorem c6_witness :
    (proxy_mcp_request pyModelEnv [] (.ok (J.obj []))
      (fun _ => .reply 200 [("content-type", "application/json")]
        "\x7b\"result\":\"ok\"\x7d")).fst
      = ⟨200, J.obj [("result", J.str "ok")], []⟩ ∧
    (proxy_mcp_request pyModelEnv [] (.ok (J.obj []))
      (fun _ => .reply 200 [("content-type", "application/json")]
        "not json")).fst
      = ⟨200, J.obj [], []⟩ := by
  constructor
  · rw [c6_theorem pyModelEnv [] (J.obj []) 200
      [("content-type", "application/json")] "\x7b\"result\":\"ok\"\x7d"
      (by decide) (by decide) rfl]
    rfl
  · rw [c6_theorem pyModelEnv [] (J.obj []) 200
      [("content-type", "application/json")] "not json"
      (by decide) (by decide) rfl]
    rfl

/-- Claim C7: for every inbound request with a valid body, the outbound
call carries exactly the synthesized allow-list — the three fixed
headers, optionally extended by the single canonical session entry — so
it never carries the centian-url override header and never carries any
other inbound header copied verbatim. -/
theorem c7_theorem (env : PyEnv) (hdrs : List (String × String)) (j : J)
    (upstream : OutboundCall → UpstreamResult) :
    ∃ outHs,
      (proxy_mcp_request env hdrs (.ok j) upstream).snd
        = some ⟨(hGet hdrs "centian-url").getD CONTEXT7_BASE_URL, outHs, j⟩ ∧
      (outHs = fixedProxyHeaders ∨
        ∃ v, outHs = fixedProxyHeaders ++ [("mcp-session-id", v)]) ∧
      (∀ p ∈ outHs, lowerStr p.fst ≠ "centian-url") := by
  refine ⟨buildProxyHeaders hdrs, ?_, ?_, ?_⟩
  · cases hu : upstream ⟨(hGet hdrs "centian-url").getD CONTEXT7_BASE_URL,
        buildProxyHeaders hdrs, j⟩ with
    | netFail m => simp [proxy_mcp_request, hu]
    | reply st hs ub => simp [proxy_mcp_request, hu]
  · rw [buildProxyHeaders_eq]
    cases h : hGet hdrs "mcp-session-id" with
    | none => exact Or.inl rfl
    | some v =>
      cases hv : v == "" with
      | true => exact Or.inl (by simp [hv])
      | false => exact Or.inr ⟨v, by simp [hv]⟩
  · intro p hp
    rcases mem_buildProxyHeaders hdrs p hp with hm | hm
    · rcases fixedProxyHeaders_fst p hm with h1 | h1 | h1 <;> (rw [h1]; decide)
    · rw [hm]
      decide

/-- Witness for C7: an inbound request with an override header and an
authorization header; neither reaches the outbound set. -/
theorem c7_witness :
    ∃ outHs,
      (proxy_mcp_request pyModelEnv
          [("centian-url", "http://example.test"), ("Authorization", "secret")]
          (.ok (J.obj [])) (fun _ => .netFail "x")).snd
        = some ⟨"http://example.test", outHs, J.obj []⟩ ∧
      (outHs = fixedProxyHeaders ∨
        ∃ v, outHs = fixedProxyHeaders ++ [("mcp-session-id", v)]) ∧
      (∀ p ∈ outHs, lowerStr p.fst ≠ "centian-url") :=
  c7_theorem pyModelEnv
    [("centian-url", "http://example.test"), ("Authorization", "secret")]
    (J.obj []) (fun _ => .netFail "x")

/-- Claim C8: a success-status SSE reply whose body has no data-marker
line yields a 500 envelope whose payload carries the raw body text, and
no decode exception escapes (the handler stays a total function). -/
theorem c8_theorem (env : PyEnv) (hdrs : List (String × String)) (j : J)
    (st : Nat) (hs : List (String × String)) (ub : String)
    (h1 : 200 ≤ st) (h2 : st < 300)
    (hct : strContains ((hGet hs "content-type").getD "") "text/event-stream" = true)
    (hnd : ∀ l ∈ splitNl (pyStripL ub.data), dataMarker.isPrefixOf l = false) :
    (proxy_mcp_request env hdrs (.ok j) (fun _ => .reply st hs ub)).fst
      = sseFailEnvelope ub := by
  show handleReply env st hs ub = sseFailEnvelope ub
  exact handleReply_sse_fail env st hs ub h1 h2 hct
    (scanDataLines_none env.evalF env.loadsF _ hnd)

/-- Witness for C8 at a concrete SSE body carrying only an event line. -/
theorem c8_witness :
    (proxy_mcp_request pyModelEnv [] (.ok (J.obj []))
      (fun _ => .reply 200 [("content-type", "text/event-stream")]
        "event: message\n\n")).fst
      = sseFailEnvelope "event: message\n\n" :=
  c8_theorem pyModelEnv [] (J.obj []) 200 [("content-type", "text/event-stream")]
    "event: message\n\n" (by decide) (by decide) rfl (by decide)

/-- Claim C9 (counterexample): an inbound request carrying the session-id
header with an empty value is a request carrying the header under the
all-lowercase spelling, yet the outbound set contains no session entry,
because the walrus condition treats the empty string as falsy — refuting
the claim that the outbound set then contains exactly one entry with the
inbound value. -/
theorem c9_counterexample :
    hGet [("mcp-session-id", "")] "mcp-session-id" = some "" ∧
    (proxy_mcp_request pyModelEnv [("mcp-session-id", "")] (.ok (J.obj []))
        (fun _ => .netFail "x")).snd
      = some ⟨CONTEXT7_BASE_URL, fixedProxyHeaders, J.obj []⟩ ∧
    (∀ p ∈ fixedProxyHeaders, p.fst ≠ "mcp-session-id") :=
  ⟨rfl, rfl, by decide⟩

/-- Claim C9 (amended): when the inbound headers carry a session id with
a nonempty value under either spelling (the lookup is case-insensitive),
the outbound header set contains exactly one session entry, under the
canonical lower-case key, with that value; when no session-id header is
present, or its value is the empty string, the outbound set contains no
session entry. -/
theorem c9_theorem (env : PyEnv) (hdrs : List (String × String)) (j : J)
    (upstream : OutboundCall → UpstreamResult) :
    ((proxy_mcp_request env hdrs (.ok j) upstream).snd
        = some ⟨(hGet hdrs "centian-url").getD CONTEXT7_BASE_URL,
                buildProxyHeaders hdrs, j⟩) ∧
    (∀ v, hGet hdrs "mcp-session-id" = some v → v ≠ "" →
      (buildProxyHeaders hdrs).filter (fun p => p.fst == "mcp-session-id")
        = [("mcp-session-id", v)]) ∧
    ((hGet hdrs "mcp-session-id" = none ∨ hGet hdrs "mcp-session-id" = some "") →
      ∀ p ∈ buildProxyHeaders hdrs, p.fst ≠ "mcp-session-id") := by
  refine ⟨?_, ?_, ?_⟩
  · cases hu : upstream ⟨(hGet hdrs "centian-url").getD CONTEXT7_BASE_URL,
        buildProxyHeaders hdrs, j⟩ with
    | netFail m => simp [proxy_mcp_request, hu]
    | reply st hs ub => simp [proxy_mcp_request, hu]
  · intro v hv hne
    have hvf : (v == "") = false := beq_empty_false v hne
    have hb : buildProxyHeaders hdrs = fixedProxyHeaders ++ [("mcp-session-id", v)] := by
      rw [buildProxyHeaders_eq, hv]
      simp [hvf]
    rw [hb]
    rfl
  · intro hor p hp
    rw [buildProxyHeaders_no_session hdrs hor] at hp
    rcases fixedProxyHeaders_fst p hp with h1 | h1 | h1 <;> (rw [h1]; decide)

/-- Witness for C9 (amended): a mixed-case inbound session id appears
exactly once in the outbound set, and a session-free request produces no
session entry. -/
theorem c9_witness :
    (buildProxyHeaders [("MCP-Session-Id", "abc123")]).filter
        (fun p => p.fst == "mcp-session-id")
      = [("mcp-session-id", "abc123")] ∧
    (∀ p ∈ buildProxyHeaders [("Accept", "text/html")],
      p.fst ≠ "mcp-session-id") := by
  have h := c9_theorem pyModelEnv [("MCP-Session-Id", "abc123")] (J.obj [])
    (fun _ => .netFail "x")
  have h2 := c9_theorem pyModelEnv [("Accept", "text/html")] (J.obj [])
    (fun _ => .netFail "x")
  exact ⟨h.2.1 "abc123" rfl (by decide), h2.2.2 (Or.inl rfl)⟩

/-- Claim C10: whenever the event payload has a params mapping (with its
arguments either absent or a mapping), the payload_transformer process
returns status 200 with the payload mutated to carry the x-processor
marker inside params.arguments, yet the returned metadata reports an
empty modifications list — the computed modifications record is
discarded. -/
theorem c10_theorem (payload pf : List (String × J))
    (hp : dictGet payload "params" = some (J.obj pf))
    (ha : dictGet pf "arguments" = none ∨
      ∃ af, dictGet pf "arguments" = some (J.obj af)) :
    ∃ newFields pf2 af2,
      PayloadTransformer.process payload
        = some ⟨200, J.obj newFields, none, ⟨"payload_transformer", []⟩⟩ ∧
      dictGet newFields "params" = some (J.obj pf2) ∧
      dictGet pf2 "arguments" = some (J.obj af2) ∧
      dictGet af2 "x-processor" = some (J.str "payload_transformer") := by
  have hps : (dictGet payload "params").isSome = true := by rw [hp]; rfl
  rcases ha with hnone | ⟨af, haf⟩
  · have hnotsome : (dictGet pf "arguments").isSome = false := by rw [hnone]; rfl
    have hget2 : dictGet (dictSet pf "arguments" (J.obj [])) "arguments"
        = some (J.obj []) := dictGet_dictSet pf "arguments" (J.obj [])
    refine ⟨dictSet payload "params"
        (J.obj (dictSet (dictSet pf "arguments" (J.obj [])) "arguments"
          (J.obj (dictSet [] "x-processor" (J.str "payload_transformer"))))),
      dictSet (dictSet pf "arguments" (J.obj [])) "arguments"
        (J.obj (dictSet [] "x-processor" (J.str "payload_transformer"))),
      dictSet [] "x-processor" (J.str "payload_transformer"),
      ?_, dictGet_dictSet _ _ _, dictGet_dictSet _ _ _, dictGet_dictSet _ _ _⟩
    unfold PayloadTransformer.process
    rw [if_pos hps, hp]
    simp only [hnotsome, Bool.false_eq_true, if_false, hget2]
  · have hsome : (dictGet pf "arguments").isSome = true := by rw [haf]; rfl
    refine ⟨dictSet payload "params"
        (J.obj (dictSet pf "arguments"
          (J.obj (dictSet af "x-processor" (J.str "payload_transformer"))))),
      dictSet pf "arguments"
        (J.obj (dictSet af "x-processor" (J.str "payload_transformer"))),
      dictSet af "x-processor" (J.str "payload_transformer"),
      ?_, dictGet_dictSet _ _ _, dictGet_dictSet _ _ _, dictGet_dictSet _ _ _⟩
    unfold PayloadTransformer.process
    rw [if_pos hps, hp]
    simp only [haf, Option.isSome_some]
    rw [if_pos trivial, haf]

/-- Witness for C10 at a concrete event payload with an empty params
mapping. -/
theorem c10_witness :
    ∃ newFields pf2 af2,
      PayloadTransformer.process [("params", J.obj [])]
        = some ⟨200, J.obj newFields, none, ⟨"payload_transformer", []⟩⟩ ∧
      dictGet newFields "params" = some (J.obj pf2) ∧
      dictGet pf2 "arguments" = some (J.obj af2) ∧
      dictGet af2 "x-processor" = some (J.str "payload_transformer") :=
  c10_theorem [("params", J.obj [])] [] rfl (Or.inl rfl)
